import Mathlib

/- Shallow embedding of src/ClanBot.py.

   The persistent store (sqlite tables `clans` and `clan_members`), the
   guild-side external state (roles, role assignments, members, categories,
   channels with per-principal permission overwrites) and the operations of
   the bot (create_clan, invite_clan, kick_clan, disband_clan, clan_info,
   update_clan_permissions, on_member_remove) are translated to pure
   functions over explicit state.  Fallible external calls (discord API
   operations) are driven by an `Env` of outcomes; a raised exception that
   the Python code does not catch is modelled as an `err` field in the
   result, carrying the world at the moment of the raise. -/

inductive Outcome where
  | success : Outcome
  | forbidden : Outcome
  | err : Outcome
deriving DecidableEq

inductive PyErr where
  | forbidden : PyErr
  | attributeError : PyErr
  | unboundLocal : PyErr
  | other : PyErr
deriving DecidableEq

/- Access-control principals: the guild default role, a named role, or an
   individual member (discord.py keys the overwrite dict by these objects;
   Member equality is by id, Role equality is by the resolved role, which
   this model identifies by its name). -/
inductive Principal where
  | defaultRole : Principal
  | rolePrin : String → Principal
  | memberPrin : Nat → Principal
deriving DecidableEq

structure PermissionOverwrite where
  viewChannel : Option Bool
  sendMessages : Option Bool
  connect : Option Bool
  speak : Option Bool
  manageChannels : Option Bool
deriving DecidableEq

def denyView : PermissionOverwrite :=
  { viewChannel := some false, sendMessages := none, connect := none, speak := none, manageChannels := none }

def memberGrant : PermissionOverwrite :=
  { viewChannel := some true, sendMessages := some true, connect := some true, speak := some true, manageChannels := none }

def leaderGrant : PermissionOverwrite :=
  { viewChannel := some true, sendMessages := some true, connect := some true, speak := some true, manageChannels := some true }

/- A Python dict from principal to overwrite, as an association list with
   dict-insertion semantics: assignment replaces the value in place if the
   key exists, else appends. -/
abbrev OWMap := List (Principal × PermissionOverwrite)

def owInsert : OWMap → Principal → PermissionOverwrite → OWMap
  | [], p, v => [(p, v)]
  | (q, u) :: rest, p, v => if q = p then (p, v) :: rest else (q, u) :: owInsert rest p v

def owLookup : OWMap → Principal → Option PermissionOverwrite
  | [], _ => none
  | (q, u) :: rest, p => if q = p then some u else owLookup rest p

structure Clan where
  id : Nat
  name : String
  leaderId : Nat
  textChannelId : Nat
  voiceChannelId : Nat
deriving DecidableEq

structure Channel where
  id : Nat
  name : String
  category : String
  overwrites : OWMap
deriving DecidableEq

structure Guild where
  roleNames : List String
  roleAssignments : List (String × Nat)
  members : List Nat
  categories : List String
  channels : List Channel
  nextChannelId : Nat
deriving DecidableEq

structure Store where
  clans : List Clan
  clanMembers : List (Nat × Nat)
  nextClanId : Nat
deriving DecidableEq

structure World where
  store : Store
  guild : Guild
deriving DecidableEq

/- get_clan_by_name: SELECT * FROM clans WHERE name = ? (first row). -/
def getClanByName (s : Store) (name : String) : Option Clan :=
  s.clans.find? (fun cl => cl.name == name)

/- SELECT name, leader_id, text_channel_id, voice_channel_id FROM clans WHERE id = ?. -/
def findClanById (s : Store) (cid : Nat) : Option Clan :=
  s.clans.find? (fun cl => cl.id == cid)

/- get_members: SELECT member_id FROM clan_members WHERE clan_id = ?. -/
def getMembersOf (s : Store) (cid : Nat) : List Nat :=
  (s.clanMembers.filter (fun p => p.1 == cid)).map (fun p => p.2)

/- get_user_clan: SELECT clan_id FROM clan_members WHERE member_id = ? (first row or None). -/
def getUserClan (s : Store) (uid : Nat) : Option Nat :=
  (s.clanMembers.find? (fun p => p.2 == uid)).map (fun p => p.1)

/- Python truthiness of get_user_clan's result (`if existing_clan_id:`):
   None and 0 are falsy. -/
def pyTruthy : Option Nat → Bool
  | none => false
  | some n => n != 0

/- add_clan_to_db: INSERT clan row (AUTOINCREMENT id), INSERT leader membership. -/
def addClanToDb (s : Store) (name : String) (leaderId tid vid : Nat) : Store :=
  { clans := s.clans ++ [{ id := s.nextClanId, name := name, leaderId := leaderId, textChannelId := tid, voiceChannelId := vid }],
    clanMembers := s.clanMembers ++ [(s.nextClanId, leaderId)],
    nextClanId := s.nextClanId + 1 }

/- remove_clan_from_db: DELETE FROM clans WHERE id, DELETE FROM clan_members WHERE clan_id. -/
def removeClanFromDb (s : Store) (cid : Nat) : Store :=
  { s with clans := s.clans.filter (fun cl => cl.id != cid),
           clanMembers := s.clanMembers.filter (fun p => p.1 != cid) }

/- INSERT OR IGNORE INTO clan_members. -/
def addMember (s : Store) (cid m : Nat) : Store :=
  if s.clanMembers.contains (cid, m) then s
  else { s with clanMembers := s.clanMembers ++ [(cid, m)] }

/- DELETE FROM clan_members WHERE clan_id = ? AND member_id = ?. -/
def removeMember (s : Store) (cid m : Nat) : Store :=
  { s with clanMembers := s.clanMembers.filter (fun p => !(p.1 == cid && p.2 == m)) }

/- get(guild.roles, name=...). -/
def findRole (g : Guild) (name : String) : Option String :=
  if g.roleNames.contains name then some name else none

def addRole (g : Guild) (name : String) : Guild :=
  { g with roleNames := g.roleNames ++ [name] }

/- role.delete(): the role disappears and with it every assignment of it. -/
def removeRoleG (g : Guild) (name : String) : Guild :=
  { g with roleNames := g.roleNames.filter (fun r => r != name),
           roleAssignments := g.roleAssignments.filter (fun a => a.1 != name) }

def assignRole (g : Guild) (name : String) (m : Nat) : Guild :=
  { g with roleAssignments := g.roleAssignments ++ [(name, m)] }

def unassignRole (g : Guild) (name : String) (m : Nat) : Guild :=
  { g with roleAssignments := g.roleAssignments.filter (fun a => !(a.1 == name && a.2 == m)) }

/- role.members. -/
def roleHolders (g : Guild) (name : String) : List Nat :=
  (g.roleAssignments.filter (fun a => a.1 == name)).map (fun a => a.2)

/- guild.get_channel. -/
def getChannel (g : Guild) (cid : Nat) : Option Channel :=
  g.channels.find? (fun ch => ch.id == cid)

/- guild.get_member. -/
def getMember (g : Guild) (m : Nat) : Option Nat :=
  if g.members.contains m then some m else none

def resolvableMember (g : Guild) (m : Nat) : Bool :=
  g.members.contains m

def deleteChannelG (g : Guild) (cid : Nat) : Guild :=
  { g with channels := g.channels.filter (fun ch => ch.id != cid) }

def removeCategory (g : Guild) (catName : String) : Guild :=
  { g with categories := g.categories.filter (fun c => c != catName) }

def addCategory (g : Guild) (catName : String) : Guild :=
  { g with categories := g.categories ++ [catName] }

/- channel.edit(overwrites=...): replace the channel's whole overwrite set. -/
def fChan (cid : Nat) (ow : OWMap) (ch : Channel) : Channel :=
  if ch.id = cid then { ch with overwrites := ow } else ch

def setChannelOW (g : Guild) (cid : Nat) (ow : OWMap) : Guild :=
  { g with channels := g.channels.map (fChan cid ow) }

/- Outcomes of the fallible external (discord) calls, one knob per call site. -/
structure Env where
  createRole : Outcome
  createCategory : Outcome
  createTextChannel : Outcome
  createVoiceChannel : Outcome
  addRoles : Outcome
  dbInsertOk : Bool
  removeRoles : Nat → Outcome
  deleteRole : Outcome
  deleteChannel : Nat → Outcome
  deleteCategory : Outcome
  editChannel : Nat → Outcome

/- The overwrite dict built by update_clan_permissions (lines 87-99):
   base entries for default role, clan role and leader, then one
   assignment per recorded member that resolves in the guild.  Note the
   member loop re-assigns the leader's key when the leader is recorded. -/
def computeOverwrites (s : Store) (g : Guild) (clan : Clan) : OWMap :=
  (getMembersOf s clan.id).foldl
    (fun acc mid =>
      if resolvableMember g mid then owInsert acc (Principal.memberPrin mid) memberGrant else acc)
    [(Principal.defaultRole, denyView),
     (Principal.rolePrin clan.name, memberGrant),
     (Principal.memberPrin clan.leaderId, leaderGrant)]

/- Line 84: `if not role or not text_channel or not voice_channel or not leader: return`. -/
def resolveOkC (w : World) (clan : Clan) : Bool :=
  (findRole w.guild clan.name).isSome && (getChannel w.guild clan.textChannelId).isSome &&
    (getChannel w.guild clan.voiceChannelId).isSome && (getMember w.guild clan.leaderId).isSome

/- The try block of lines 102-108: edit the text channel, then the voice
   channel; discord.Forbidden and every other exception are caught, so a
   failed first edit leaves both channels untouched and a failed second
   edit leaves the first edit in place. -/
def applyOW (env : Env) (w : World) (tid vid : Nat) (ow : OWMap) : World :=
  match env.editChannel tid with
  | Outcome.success =>
    match env.editChannel vid with
    | Outcome.success => { w with guild := setChannelOW (setChannelOW w.guild tid ow) vid ow }
    | Outcome.forbidden => { w with guild := setChannelOW w.guild tid ow }
    | Outcome.err => { w with guild := setChannelOW w.guild tid ow }
  | Outcome.forbidden => w
  | Outcome.err => w

/- update_clan_permissions (lines 70-108).  The second component is the
   exception escaping to the caller; by the catch-all it is always none. -/
def updateClanPermissions (env : Env) (w : World) (cid : Nat) : World × Option PyErr :=
  match findClanById w.store cid with
  | none => (w, none)
  | some clan =>
    if resolveOkC w clan then
      (applyOW env w clan.textChannelId clan.voiceChannelId (computeOverwrites w.store w.guild clan), none)
    else (w, none)

def reconcileW (env : Env) (w : World) (cid : Nat) : World :=
  (updateClanPermissions env w cid).1

def reconcileResolvesB (w : World) (cid : Nat) : Bool :=
  match findClanById w.store cid with
  | none => false
  | some clan => resolveOkC w clan

/- on_member_remove (lines 158-168): delete every membership record of the
   departing member, then the scheduled update_clan_permissions tasks run. -/
def onMemberRemove (env : Env) (w : World) (m : Nat) : World :=
  let cids := (w.store.clanMembers.filter (fun p => p.2 == m)).map (fun p => p.1)
  let w1 : World := { w with store := { w.store with clanMembers := w.store.clanMembers.filter (fun p => !(p.2 == m)) } }
  cids.foldl (fun wa cid => reconcileW env wa cid) w1

/- Reply strings of the handlers. -/
def mention (m : Nat) : String := "<@" ++ toString m ++ ">"

def chanMention (c : Nat) : String := "<#" ++ toString c ++ ">"

def msgClanNotFound : String := "Clan not found!"

def msgAlreadyInClan : String := "You are already in a clan! Leave it before creating a new one."

def msgClanNameTaken (name : String) : String := "A clan called **" ++ name ++ "** already exists!"

def msgRoleNameTaken (name : String) : String := "A role called **" ++ name ++ "** already exists!"

def msgCannotCreateRole : String := "Bot cannot create role. Check permissions."

def msgCannotCategory : String := "Bot cannot access or create the clan category."

def msgCannotChannels : String := "Bot cannot create channels. Check permissions."

def msgClanInDb : String := "Clan already exists in database!"

def msgClanCreated (name : String) : String := "Clan **" ++ name ++ "** created! You are now the leader."

def msgOnlyLeaderInvite : String := "Only the clan leader can invite members!"

def msgOnlyLeaderKick : String := "Only the clan leader can kick members!"

def msgOnlyLeaderDisband : String := "Only the clan leader can disband the clan!"

def msgInvited (target : Nat) (clanName : String) : String :=
  mention target ++ " has been added to **" ++ clanName ++ "**!"

def msgKicked (target : Nat) (clanName : String) : String :=
  mention target ++ " has been removed from **" ++ clanName ++ "**."

def msgDisbanded (clanName : String) : String :=
  "Clan **" ++ clanName ++ "** has been disbanded."

def strUnknown : String := "Unknown"

def strDeleted : String := "Deleted"

def strNone : String := "None"

def strEmpty : String := ""

def sepComma : String := ", "

def catNameOf (name : String) : String := "CLAN - " ++ name

def textSuffix : String := "-text"

def voiceSuffix : String := "-voice"

/- Python str.lower() on the channel-name prefix (ASCII-lowering each
   character, as a structurally recursive map so it evaluates). -/
def strLower (s : String) : String := String.mk (s.data.map Char.toLower)

/- The initial overwrite dict of create_clan (lines 213-217). -/
def initOverwrites (name : String) (requester : Nat) : OWMap :=
  [(Principal.defaultRole, denyView),
   (Principal.rolePrin name, memberGrant),
   (Principal.memberPrin requester, leaderGrant)]

/- Teardown actions of disband, recorded in order of execution. -/
inductive DAction where
  | deletedRole : DAction
  | deletedChannel : Nat → DAction
  | deletedCategory : DAction
  | removedClanRow : Nat → DAction
deriving DecidableEq

/- Result of one command invocation: final world, the exception escaping
   the handler body (if any), the reply sent, the teardown trace. -/
structure Res where
  world : World
  err : Option PyErr := none
  msg : Option String := none
  trace : List DAction := []
deriving DecidableEq

/- create_clan, channel-creation part onward (lines 213-245), entered with
   the role already created (inside guild g) and the category resolved.
   A Forbidden from a channel creation is caught, but the rollback then
   refers to the not-yet-assigned channel variable: after the role (and,
   for a voice failure, the text channel) is deleted the handler dies
   of an unbound-local reference. The IntegrityError path (lines 238-243)
   deletes role and both channels but not the category. -/
def createClanChannels (env : Env) (w : World) (g : Guild) (requester : Nat) (name catName : String) : Res :=
  match env.createTextChannel with
  | Outcome.forbidden =>
    match env.deleteRole with
    | Outcome.success =>
      { world := { w with guild := removeRoleG g name }, err := some PyErr.unboundLocal, msg := some msgCannotChannels }
    | Outcome.forbidden =>
      { world := { w with guild := g }, err := some PyErr.forbidden, msg := some msgCannotChannels }
    | Outcome.err =>
      { world := { w with guild := g }, err := some PyErr.other, msg := some msgCannotChannels }
  | Outcome.err => { world := { w with guild := g }, err := some PyErr.other }
  | Outcome.success =>
    let tch : Channel :=
      { id := g.nextChannelId, name := strLower name ++ textSuffix, category := catName,
        overwrites := initOverwrites name requester }
    let g3 : Guild := { g with channels := g.channels ++ [tch], nextChannelId := g.nextChannelId + 1 }
    match env.createVoiceChannel with
    | Outcome.forbidden =>
      match env.deleteRole with
      | Outcome.success =>
        match env.deleteChannel tch.id with
        | Outcome.success =>
          { world := { w with guild := deleteChannelG (removeRoleG g3 name) tch.id },
            err := some PyErr.unboundLocal, msg := some msgCannotChannels }
        | Outcome.forbidden =>
          { world := { w with guild := removeRoleG g3 name }, err := some PyErr.forbidden, msg := some msgCannotChannels }
        | Outcome.err =>
          { world := { w with guild := removeRoleG g3 name }, err := some PyErr.other, msg := some msgCannotChannels }
      | Outcome.forbidden =>
        { world := { w with guild := g3 }, err := some PyErr.forbidden, msg := some msgCannotChannels }
      | Outcome.err =>
        { world := { w with guild := g3 }, err := some PyErr.other, msg := some msgCannotChannels }
    | Outcome.err => { world := { w with guild := g3 }, err := some PyErr.other }
    | Outcome.success =>
      let vch : Channel :=
        { id := g3.nextChannelId, name := strLower name ++ voiceSuffix, category := catName,
          overwrites := initOverwrites name requester }
      let g4 : Guild := { g3 with channels := g3.channels ++ [vch], nextChannelId := g3.nextChannelId + 1 }
      match env.addRoles with
      | Outcome.forbidden => { world := { w with guild := g4 }, err := some PyErr.forbidden }
      | Outcome.err => { world := { w with guild := g4 }, err := some PyErr.other }
      | Outcome.success =>
        let g5 := assignRole g4 name requester
        if env.dbInsertOk then
          { world := { store := addClanToDb w.store name requester tch.id vch.id, guild := g5 },
            msg := some (msgClanCreated name) }
        else
          match env.deleteRole with
          | Outcome.success =>
            match env.deleteChannel tch.id with
            | Outcome.success =>
              match env.deleteChannel vch.id with
              | Outcome.success =>
                { world := { store := w.store, guild := deleteChannelG (deleteChannelG (removeRoleG g5 name) tch.id) vch.id },
                  msg := some msgClanInDb }
              | Outcome.forbidden =>
                { world := { store := w.store, guild := deleteChannelG (removeRoleG g5 name) tch.id },
                  err := some PyErr.forbidden, msg := some msgClanInDb }
              | Outcome.err =>
                { world := { store := w.store, guild := deleteChannelG (removeRoleG g5 name) tch.id },
                  err := some PyErr.other, msg := some msgClanInDb }
            | Outcome.forbidden =>
              { world := { store := w.store, guild := removeRoleG g5 name }, err := some PyErr.forbidden, msg := some msgClanInDb }
            | Outcome.err =>
              { world := { store := w.store, guild := removeRoleG g5 name }, err := some PyErr.other, msg := some msgClanInDb }
          | Outcome.forbidden =>
            { world := { store := w.store, guild := g5 }, err := some PyErr.forbidden, msg := some msgClanInDb }
          | Outcome.err =>
            { world := { store := w.store, guild := g5 }, err := some PyErr.other, msg := some msgClanInDb }

/- create_clan (lines 179-245). -/
def createClan (env : Env) (w : World) (requester : Nat) (name : String) : Res :=
  if pyTruthy (getUserClan w.store requester) then
    { world := w, msg := some msgAlreadyInClan }
  else if (getClanByName w.store name).isSome then
    { world := w, msg := some (msgClanNameTaken name) }
  else if w.guild.roleNames.contains name then
    { world := w, msg := some (msgRoleNameTaken name) }
  else
    match env.createRole with
    | Outcome.forbidden => { world := w, msg := some msgCannotCreateRole }
    | Outcome.err => { world := w, err := some PyErr.other }
    | Outcome.success =>
      let g1 := addRole w.guild name
      let catName := catNameOf name
      if g1.categories.contains catName then
        createClanChannels env w g1 requester name catName
      else
        match env.createCategory with
        | Outcome.success => createClanChannels env w (addCategory g1 catName) requester name catName
        | Outcome.forbidden =>
          match env.deleteRole with
          | Outcome.success =>
            { world := { w with guild := removeRoleG g1 name }, msg := some msgCannotCategory }
          | Outcome.forbidden =>
            { world := { w with guild := g1 }, err := some PyErr.forbidden, msg := some msgCannotCategory }
          | Outcome.err =>
            { world := { w with guild := g1 }, err := some PyErr.other, msg := some msgCannotCategory }
        | Outcome.err => { world := { w with guild := g1 }, err := some PyErr.other }

/- invite_clan (lines 251-271).  The role resolved at line 263 is not
   nil-checked before member.add_roles(role): a vanished role raises
   AttributeError on None. -/
def inviteClan (env : Env) (w : World) (requester target : Nat) (clanName : String) : Res :=
  match getClanByName w.store clanName with
  | none => { world := w, msg := some msgClanNotFound }
  | some clan =>
    if requester ≠ clan.leaderId then
      { world := w, msg := some msgOnlyLeaderInvite }
    else
      match findRole w.guild clanName with
      | none => { world := w, err := some PyErr.attributeError }
      | some _ =>
        match env.addRoles with
        | Outcome.forbidden => { world := w, err := some PyErr.forbidden }
        | Outcome.err => { world := w, err := some PyErr.other }
        | Outcome.success =>
          let w1 : World := { store := addMember w.store clan.id target, guild := assignRole w.guild clanName target }
          let p := updateClanPermissions env w1 clan.id
          match p.2 with
          | some e => { world := p.1, err := some e }
          | none => { world := p.1, msg := some (msgInvited target clanName) }

/- kick_clan (lines 276-296), with the same unchecked role resolution. -/
def kickClan (env : Env) (w : World) (requester target : Nat) (clanName : String) : Res :=
  match getClanByName w.store clanName with
  | none => { world := w, msg := some msgClanNotFound }
  | some clan =>
    if requester ≠ clan.leaderId then
      { world := w, msg := some msgOnlyLeaderKick }
    else
      match findRole w.guild clanName with
      | none => { world := w, err := some PyErr.attributeError }
      | some _ =>
        match env.removeRoles target with
        | Outcome.forbidden => { world := w, err := some PyErr.forbidden }
        | Outcome.err => { world := w, err := some PyErr.other }
        | Outcome.success =>
          let w1 : World := { store := removeMember w.store clan.id target, guild := unassignRole w.guild clanName target }
          let p := updateClanPermissions env w1 clan.id
          match p.2 with
          | some e => { world := p.1, err := some e }
          | none => { world := p.1, msg := some (msgKicked target clanName) }

/- disband's loop over role.members (lines 317-318); remove_roles is not
   wrapped in try, so any failure propagates with the loop half done. -/
def removeRoleAll (env : Env) (name : String) : Guild → List Nat → Except (PyErr × Guild) Guild
  | g, [] => Except.ok g
  | g, m :: ms =>
    match env.removeRoles m with
    | Outcome.success => removeRoleAll env name (unassignRole g name m) ms
    | Outcome.forbidden => Except.error (PyErr.forbidden, g)
    | Outcome.err => Except.error (PyErr.other, g)

/- One iteration of the channel-deletion loop (lines 325-331): skip a
   dangling reference, catch Forbidden, let anything else propagate. -/
def disbandChannelStep (env : Env) (g : Guild) (cid : Nat) : Except (PyErr × Guild) (Guild × List DAction) :=
  match getChannel g cid with
  | none => Except.ok (g, [])
  | some _ =>
    match env.deleteChannel cid with
    | Outcome.success => Except.ok (deleteChannelG g cid, [DAction.deletedChannel cid])
    | Outcome.forbidden => Except.ok (g, [])
    | Outcome.err => Except.error (PyErr.other, g)

/- Category deletion (lines 333-340): only if it exists and is empty. -/
def disbandCategoryStep (env : Env) (g : Guild) (catName : String) : Except (PyErr × Guild) (Guild × List DAction) :=
  if g.categories.contains catName && (g.channels.filter (fun ch => ch.category == catName)).isEmpty then
    match env.deleteCategory with
    | Outcome.success => Except.ok (removeCategory g catName, [DAction.deletedCategory])
    | Outcome.forbidden => Except.ok (g, [])
    | Outcome.err => Except.error (PyErr.other, g)
  else Except.ok (g, [])

/- disband_clan (lines 301-345): tag removal from holders, role deletion
   (Forbidden caught), channel deletions (Forbidden caught), category
   deletion if empty (Forbidden caught), and, last, the store rows. -/
def disbandClan (env : Env) (w : World) (requester : Nat) (clanName : String) : Res :=
  match getClanByName w.store clanName with
  | none => { world := w, msg := some msgClanNotFound }
  | some clan =>
    if requester ≠ clan.leaderId then
      { world := w, msg := some msgOnlyLeaderDisband }
    else
      match (if w.guild.roleNames.contains clanName then
               match removeRoleAll env clanName w.guild (roleHolders w.guild clanName) with
               | Except.error e => Except.error e
               | Except.ok g1 =>
                 match env.deleteRole with
                 | Outcome.success => Except.ok (removeRoleG g1 clanName, [DAction.deletedRole])
                 | Outcome.forbidden => Except.ok (g1, ([] : List DAction))
                 | Outcome.err => Except.error (PyErr.other, g1)
             else Except.ok (w.guild, ([] : List DAction))) with
      | Except.error (e, g') => { world := { store := w.store, guild := g' }, err := some e }
      | Except.ok (g2, tr1) =>
        match disbandChannelStep env g2 clan.textChannelId with
        | Except.error (e, g') => { world := { store := w.store, guild := g' }, err := some e, trace := tr1 }
        | Except.ok (g3, tr2) =>
          match disbandChannelStep env g3 clan.voiceChannelId with
          | Except.error (e, g') => { world := { store := w.store, guild := g' }, err := some e, trace := tr1 ++ tr2 }
          | Except.ok (g4, tr3) =>
            match disbandCategoryStep env g4 (catNameOf clanName) with
            | Except.error (e, g') =>
              { world := { store := w.store, guild := g' }, err := some e, trace := (tr1 ++ tr2) ++ tr3 }
            | Except.ok (g5, tr4) =>
              { world := { store := removeClanFromDb w.store clan.id, guild := g5 },
                msg := some (msgDisbanded clanName),
                trace := (((tr1 ++ tr2) ++ tr3) ++ tr4) ++ [DAction.removedClanRow clan.id] }

structure InfoFields where
  leaderField : String
  membersField : String
  textField : String
  voiceField : String
deriving DecidableEq

structure InfoRes where
  world : World
  err : Option PyErr
  msg : Option String
  embed : Option InfoFields
deriving DecidableEq

/- clan_info (lines 351-374): read-only; every unresolved reference is
   reported as Unknown, Deleted or dropped from the member list. -/
def clanInfo (w : World) (clanName : String) : InfoRes :=
  match getClanByName w.store clanName with
  | none => { world := w, err := none, msg := some msgClanNotFound, embed := none }
  | some clan =>
    let resolved := (getMembersOf w.store clan.id).filterMap (fun mid => getMember w.guild mid)
    let mentions := String.intercalate sepComma (resolved.map mention)
    { world := w, err := none, msg := none,
      embed := some
        { leaderField := (getMember w.guild clan.leaderId).elim strUnknown mention,
          membersField := if mentions == strEmpty then strNone else mentions,
          textField := (getChannel w.guild clan.textChannelId).elim strDeleted (fun ch => chanMention ch.id),
          voiceField := (getChannel w.guild clan.voiceChannelId).elim strDeleted (fun ch => chanMention ch.id) } }

/- Invariant I1 of the spec: every stored clan has its leader's record. -/
def leaderInv (s : Store) : Prop :=
  ∀ c ∈ s.clans, (c.id, c.leaderId) ∈ s.clanMembers

instance (s : Store) : Decidable (leaderInv s) := by
  unfold leaderInv
  exact List.decidableBAll _ _

/- At-most-one-clan-per-member: all member ids in clan_members distinct. -/
def membersUnique (s : Store) : Prop :=
  s.clanMembers.Pairwise (fun p q => p.2 ≠ q.2)

instance (s : Store) : Decidable (membersUnique s) := by
  unfold membersUnique
  exact List.instDecidablePairwise _

/- Validation failure of invite/kick/disband: unknown name or not leader. -/
def valFailsB (w : World) (clanName : String) (requester : Nat) : Bool :=
  match getClanByName w.store clanName with
  | none => true
  | some clan => requester != clan.leaderId

/- The leader appears among the recorded members and resolves in the guild
   (the condition under which the member loop clobbers the leader entry). -/
def leaderRecorded (w : World) (clan : Clan) : Bool :=
  (getMembersOf w.store clan.id).any (fun mid => mid == clan.leaderId && resolvableMember w.guild mid)

/- Concrete environments and worlds used by witnesses and counterexamples. -/
def envAllOk : Env :=
  { createRole := Outcome.success, createCategory := Outcome.success,
    createTextChannel := Outcome.success, createVoiceChannel := Outcome.success,
    addRoles := Outcome.success, dbInsertOk := true,
    removeRoles := fun _ => Outcome.success, deleteRole := Outcome.success,
    deleteChannel := fun _ => Outcome.success, deleteCategory := Outcome.success,
    editChannel := fun _ => Outcome.success }

def envDbFail : Env := { envAllOk with dbInsertOk := false }

def envVoiceFail : Env :=
  { envAllOk with deleteChannel := fun cid => if cid == 11 then Outcome.forbidden else Outcome.success }

def envKickFail : Env :=
  { envAllOk with removeRoles := fun m => if m == 1 then Outcome.forbidden else Outcome.success }

def nameAlpha : String := "Alpha"

def nameBeta : String := "Beta"

def w0 : World :=
  { store := { clans := [], clanMembers := [], nextClanId := 1 },
    guild := { roleNames := [], roleAssignments := [], members := [1, 2, 3],
               categories := [], channels := [], nextChannelId := 10 } }

def wAlpha : World := (createClan envAllOk w0 1 nameAlpha).world

def clanAlpha : Clan :=
  { id := 1, name := nameAlpha, leaderId := 1, textChannelId := 10, voiceChannelId := 11 }

def wAlphaRecon : World := reconcileW envAllOk wAlpha 1

def wBeta : World := (createClan envAllOk wAlpha 2 nameBeta).world

def wDouble : World := (inviteClan envAllOk wBeta 2 1 nameBeta).world

def wAlphaInvited : World := (inviteClan envAllOk wAlpha 1 2 nameAlpha).world

def wAfterLeaderKick : World := (kickClan envAllOk wAlphaInvited 1 1 nameAlpha).world

/- A stored clan whose role, channels and leader have all vanished from
   the guild (externally deleted). -/
def wGhost : World :=
  { store := { clans := [clanAlpha], clanMembers := [(1, 1)], nextClanId := 2 },
    guild := { roleNames := [], roleAssignments := [], members := [],
               categories := [], channels := [], nextChannelId := 12 } }

def envTextFail : Env := { envAllOk with createTextChannel := Outcome.forbidden }

def envVoiceCreateFail : Env := { envAllOk with createVoiceChannel := Outcome.forbidden }


theorem owLookup_owInsert_self (m : OWMap) (p : Principal) (v : PermissionOverwrite) :
    owLookup (owInsert m p v) p = some v := by
  induction m with
  | nil => simp [owInsert, owLookup]
  | cons qu rest ih =>
    obtain ⟨q, u⟩ := qu
    by_cases h : q = p
    · simp [owInsert, owLookup, h]
    · simp [owInsert, owLookup, h, ih]

theorem owLookup_owInsert_ne (m : OWMap) {q p : Principal} (v : PermissionOverwrite) (hne : q ≠ p) :
    owLookup (owInsert m q v) p = owLookup m p := by
  induction m with
  | nil => simp [owInsert, owLookup, hne]
  | cons ru rest ih =>
    obtain ⟨r, u⟩ := ru
    by_cases h : r = q
    · subst h
      simp [owInsert, owLookup, hne]
    · by_cases h2 : r = p
      · subst h2
        simp [owInsert, owLookup, h]
      · simp [owInsert, owLookup, h, h2, ih]

theorem owLookup_fold (g : Guild) (l : List Nat) (acc : OWMap) (p : Principal) :
    owLookup (l.foldl (fun acc mid =>
        if resolvableMember g mid then owInsert acc (Principal.memberPrin mid) memberGrant else acc) acc) p =
      if l.any (fun mid => decide (Principal.memberPrin mid = p) && resolvableMember g mid) then some memberGrant
      else owLookup acc p := by
  induction l generalizing acc with
  | nil => simp
  | cons mid rest ih =>
    simp only [List.foldl_cons, List.any_cons]
    rw [ih]
    by_cases hres : resolvableMember g mid = true
    · by_cases hp : Principal.memberPrin mid = p
      · subst hp
        simp [hres, owLookup_owInsert_self]
      · simp [hres, hp, owLookup_owInsert_ne acc memberGrant hp]
    · have hres' : resolvableMember g mid = false := by simpa using hres
      simp [hres']

theorem fChan_id (cid : Nat) (ow : OWMap) (ch : Channel) : (fChan cid ow ch).id = ch.id := by
  unfold fChan
  split <;> rfl

theorem find?_map_fChan (l : List Channel) (cid t : Nat) (ow : OWMap) :
    (l.map (fChan cid ow)).find? (fun ch => ch.id == t) = (l.find? (fun ch => ch.id == t)).map (fChan cid ow) := by
  induction l with
  | nil => rfl
  | cons ch rest ih =>
    simp only [List.map_cons, List.find?_cons]
    rw [fChan_id]
    cases h : (ch.id == t) with
    | true => simp [h]
    | false => simp [h, ih]

theorem getChannel_setChannelOW (g : Guild) (cid t : Nat) (ow : OWMap) :
    getChannel (setChannelOW g cid ow) t = (getChannel g t).map (fChan cid ow) := by
  unfold getChannel setChannelOW
  exact find?_map_fChan g.channels cid t ow

theorem getChannel_setChannelOW_isSome (g : Guild) (cid t : Nat) (ow : OWMap) :
    (getChannel (setChannelOW g cid ow) t).isSome = (getChannel g t).isSome := by
  rw [getChannel_setChannelOW]
  cases getChannel g t <;> rfl

theorem fChan_eq (cid : Nat) (ow : OWMap) (ch : Channel) (h : ch.id = cid) :
    fChan cid ow ch = { ch with overwrites := ow } := by
  unfold fChan
  rw [if_pos h]

theorem fChan_ne (cid : Nat) (ow : OWMap) (ch : Channel) (h : ch.id ≠ cid) :
    fChan cid ow ch = ch := by
  unfold fChan
  rw [if_neg h]

theorem fChan_fChan (cid : Nat) (ow : OWMap) (ch : Channel) :
    fChan cid ow (fChan cid ow ch) = fChan cid ow ch := by
  by_cases h : ch.id = cid
  · rw [fChan_eq cid ow ch h,
        fChan_eq cid ow { ch with overwrites := ow } (show ch.id = cid from h)]
  · rw [fChan_ne cid ow ch h, fChan_ne cid ow ch h]

theorem fChan_tv (t v : Nat) (ow : OWMap) (ch : Channel) :
    fChan v ow (fChan t ow ch) =
      if ch.id = t ∨ ch.id = v then { ch with overwrites := ow } else ch := by
  by_cases h1 : ch.id = t
  · rw [fChan_eq t ow ch h1, if_pos (Or.inl h1)]
    by_cases h2 : ch.id = v
    · rw [fChan_eq v ow { ch with overwrites := ow } (show ch.id = v from h2)]
    · rw [fChan_ne v ow { ch with overwrites := ow } (show ch.id ≠ v from h2)]
  · rw [fChan_ne t ow ch h1]
    by_cases h2 : ch.id = v
    · rw [fChan_eq v ow ch h2, if_pos (Or.inr h2)]
    · rw [fChan_ne v ow ch h2, if_neg (by simp [h1, h2])]

theorem fChan_pair_idem (t v : Nat) (ow : OWMap) (ch : Channel) :
    fChan v ow (fChan t ow (fChan v ow (fChan t ow ch))) = fChan v ow (fChan t ow ch) := by
  rw [fChan_tv t v ow ch]
  by_cases h : ch.id = t ∨ ch.id = v
  · rw [if_pos h, fChan_tv t v ow { ch with overwrites := ow },
        if_pos (show ch.id = t ∨ ch.id = v from h)]
  · rw [if_neg h, fChan_tv t v ow ch, if_neg h]

theorem setChannelOW_absorb (g : Guild) (cid : Nat) (ow : OWMap) :
    setChannelOW (setChannelOW g cid ow) cid ow = setChannelOW g cid ow := by
  show ({ g with channels := (g.channels.map (fChan cid ow)).map (fChan cid ow) } : Guild)
      = { g with channels := g.channels.map (fChan cid ow) }
  rw [List.map_map]
  congr 1
  exact List.map_congr_left fun ch _ => fChan_fChan cid ow ch

theorem setChannelOW_pair_idem (g : Guild) (t v : Nat) (ow : OWMap) :
    setChannelOW (setChannelOW (setChannelOW (setChannelOW g t ow) v ow) t ow) v ow
      = setChannelOW (setChannelOW g t ow) v ow := by
  show ({ g with channels := (((g.channels.map (fChan t ow)).map (fChan v ow)).map (fChan t ow)).map (fChan v ow) } : Guild)
      = { g with channels := (g.channels.map (fChan t ow)).map (fChan v ow) }
  simp only [List.map_map]
  congr 1
  refine List.map_congr_left fun ch _ => ?_
  show fChan v ow (fChan t ow (fChan v ow (fChan t ow ch))) = fChan v ow (fChan t ow ch)
  exact fChan_pair_idem t v ow ch

theorem applyOW_store (env : Env) (w : World) (tid vid : Nat) (ow : OWMap) :
    (applyOW env w tid vid ow).store = w.store := by
  unfold applyOW
  cases env.editChannel tid
  · cases env.editChannel vid <;> rfl
  · rfl
  · rfl

theorem applyOW_members (env : Env) (w : World) (tid vid : Nat) (ow : OWMap) :
    (applyOW env w tid vid ow).guild.members = w.guild.members := by
  unfold applyOW
  cases env.editChannel tid
  · cases env.editChannel vid <;> rfl
  · rfl
  · rfl

theorem applyOW_roleNames (env : Env) (w : World) (tid vid : Nat) (ow : OWMap) :
    (applyOW env w tid vid ow).guild.roleNames = w.guild.roleNames := by
  unfold applyOW
  cases env.editChannel tid
  · cases env.editChannel vid <;> rfl
  · rfl
  · rfl

theorem applyOW_getChannel_isSome (env : Env) (w : World) (tid vid x : Nat) (ow : OWMap) :
    (getChannel (applyOW env w tid vid ow).guild x).isSome = (getChannel w.guild x).isSome := by
  unfold applyOW
  cases env.editChannel tid
  · cases env.editChannel vid <;>
      simp [getChannel_setChannelOW_isSome]
  · rfl
  · rfl

theorem resolveOkC_applyOW (env : Env) (w : World) (tid vid : Nat) (ow : OWMap) (clan : Clan) :
    resolveOkC (applyOW env w tid vid ow) clan = resolveOkC w clan := by
  unfold resolveOkC findRole getMember
  rw [applyOW_roleNames, applyOW_members, applyOW_getChannel_isSome, applyOW_getChannel_isSome]

theorem computeOverwrites_applyOW (env : Env) (w : World) (tid vid : Nat) (ow : OWMap) (s : Store) (clan : Clan) :
    computeOverwrites s (applyOW env w tid vid ow).guild clan = computeOverwrites s w.guild clan := by
  unfold applyOW
  cases env.editChannel tid
  · cases env.editChannel vid <;> rfl
  · rfl
  · rfl

theorem applyOW_idem (env : Env) (w : World) (tid vid : Nat) (ow : OWMap) :
    applyOW env (applyOW env w tid vid ow) tid vid ow = applyOW env w tid vid ow := by
  unfold applyOW
  cases env.editChannel tid
  · cases env.editChannel vid
    · simp [setChannelOW_pair_idem]
    · simp [setChannelOW_absorb]
    · simp [setChannelOW_absorb]
  · rfl
  · rfl

theorem updatePerms_snd (env : Env) (w : World) (cid : Nat) :
    (updateClanPermissions env w cid).2 = none := by
  unfold updateClanPermissions
  cases findClanById w.store cid
  · rfl
  · dsimp only
    split <;> rfl

theorem updatePerms_store (env : Env) (w : World) (cid : Nat) :
    ((updateClanPermissions env w cid).1).store = w.store := by
  unfold updateClanPermissions
  cases findClanById w.store cid with
  | none => rfl
  | some clan =>
    dsimp only
    split
    · exact applyOW_store env w clan.textChannelId clan.voiceChannelId _
    · rfl

theorem reconcileW_not_found (env : Env) (w : World) (cid : Nat)
    (h : findClanById w.store cid = none) : reconcileW env w cid = w := by
  unfold reconcileW updateClanPermissions
  rw [h]

theorem reconcileW_not_resolve (env : Env) (w : World) (cid : Nat) (clan : Clan)
    (h : findClanById w.store cid = some clan) (h2 : resolveOkC w clan = false) :
    reconcileW env w cid = w := by
  unfold reconcileW updateClanPermissions
  rw [h]
  simp [h2]

theorem reconcileW_resolve (env : Env) (w : World) (cid : Nat) (clan : Clan)
    (h : findClanById w.store cid = some clan) (h2 : resolveOkC w clan = true) :
    reconcileW env w cid
      = applyOW env w clan.textChannelId clan.voiceChannelId (computeOverwrites w.store w.guild clan) := by
  unfold reconcileW updateClanPermissions
  rw [h]
  simp [h2]

/-- C5: reconciliation is idempotent — for every environment, world and
clan id, running update_clan_permissions a second time on the world
produced by a first run (no intervening change to store, membership or
resolvable community state) yields exactly the world of the first run,
so the final overwrite set on both channels is identical to that of a
single call. -/
theorem claim_C5_reconcile_idempotent (env : Env) (w : World) (cid : Nat) :
    reconcileW env (reconcileW env w cid) cid = reconcileW env w cid := by
  cases hc : findClanById w.store cid with
  | none =>
    rw [reconcileW_not_found env w cid hc, reconcileW_not_found env w cid hc]
  | some clan =>
    cases hr : resolveOkC w clan with
    | false =>
      rw [reconcileW_not_resolve env w cid clan hc hr, reconcileW_not_resolve env w cid clan hc hr]
    | true =>
      rw [reconcileW_resolve env w cid clan hc hr]
      have hc' : findClanById (applyOW env w clan.textChannelId clan.voiceChannelId
          (computeOverwrites w.store w.guild clan)).store cid = some clan := by
        rw [applyOW_store]
        exact hc
      have hr' : resolveOkC (applyOW env w clan.textChannelId clan.voiceChannelId
          (computeOverwrites w.store w.guild clan)) clan = true := by
        rw [resolveOkC_applyOW]
        exact hr
      rw [reconcileW_resolve env _ cid clan hc' hr']
      rw [applyOW_store, computeOverwrites_applyOW]
      exact applyOW_idem env w clan.textChannelId clan.voiceChannelId _

/-- C6: update_clan_permissions never raises to its caller — its escaping
exception is always none for every environment (privilege-denial and any
other failure of the channel edits are caught), and whenever the clan
row, role, either channel or the leader cannot be resolved it returns
with the world unchanged. -/
theorem claim_C6_reconcile_never_raises (env : Env) (w : World) (cid : Nat) :
    (updateClanPermissions env w cid).2 = none ∧
      (reconcileResolvesB w cid = false → (updateClanPermissions env w cid).1 = w) := by
  constructor
  · exact updatePerms_snd env w cid
  · intro h
    unfold reconcileResolvesB at h
    unfold updateClanPermissions
    cases hc : findClanById w.store cid with
    | none => rfl
    | some clan =>
      rw [hc] at h
      dsimp only at h
      simp [h]

theorem claim_C6_witness :
    (updateClanPermissions envAllOk w0 1).2 = none ∧ (updateClanPermissions envAllOk w0 1).1 = w0 :=
  ⟨(claim_C6_reconcile_never_raises envAllOk w0 1).1,
   (claim_C6_reconcile_never_raises envAllOk w0 1).2 (by decide)⟩

theorem leaderInv_addClanToDb (s : Store) (name : String) (leaderId tid vid : Nat)
    (h : leaderInv s) : leaderInv (addClanToDb s name leaderId tid vid) := by
  intro c hc
  rcases List.mem_append.1 hc with h1 | h1
  · exact List.mem_append_left _ (h c h1)
  · rw [List.mem_singleton] at h1
    subst h1
    exact List.mem_append_right _ (by simp)

theorem leaderInv_addMember (s : Store) (cid m : Nat) (h : leaderInv s) :
    leaderInv (addMember s cid m) := by
  unfold addMember
  split
  · exact h
  · intro c hc
    exact List.mem_append_left _ (h c hc)

theorem leaderInv_removeMember (s : Store) (cid m : Nat)
    (hm : ∀ c ∈ s.clans, m ≠ c.leaderId) (h : leaderInv s) :
    leaderInv (removeMember s cid m) := by
  intro c hc
  have hcl : c ∈ s.clans := hc
  refine List.mem_filter.2 ⟨h c hcl, ?_⟩
  have hfalse : (c.leaderId == m) = false :=
    beq_eq_false_iff_ne.2 (fun hcon => (hm c hcl) hcon.symm)
  simp [hfalse]

theorem leaderInv_pruneMember (s : Store) (m : Nat)
    (hm : ∀ c ∈ s.clans, m ≠ c.leaderId) (h : leaderInv s) :
    leaderInv { s with clanMembers := s.clanMembers.filter (fun p => !(p.2 == m)) } := by
  intro c hc
  have hcl : c ∈ s.clans := hc
  refine List.mem_filter.2 ⟨h c hcl, ?_⟩
  have hfalse : (c.leaderId == m) = false :=
    beq_eq_false_iff_ne.2 (fun hcon => (hm c hcl) hcon.symm)
  simp [hfalse]

theorem leaderInv_reconcile (env : Env) (w : World) (cid : Nat) (h : leaderInv w.store) :
    leaderInv ((updateClanPermissions env w cid).1).store := by
  rw [updatePerms_store]
  exact h

theorem leaderInv_foldl_reconcile (env : Env) (cids : List Nat) (w : World) (h : leaderInv w.store) :
    leaderInv ((cids.foldl (fun wa cid => reconcileW env wa cid) w).store) := by
  induction cids generalizing w with
  | nil => exact h
  | cons c rest ih =>
    exact ih (reconcileW env w c) (by unfold reconcileW; rw [updatePerms_store]; exact h)

/-- C1 counterexample: the claim asserts the leader-record invariant is
preserved even when the kicked member is the leader.  On the code it is
not — after create and invite, kicking the leader removes the leader's
membership record while the clan row remains, so the invariant fails. -/
theorem claim_C1_counterexample :
    leaderInv wAlphaInvited.store ∧
      wAfterLeaderKick.store.clans = [clanAlpha] ∧
      ¬ leaderInv wAfterLeaderKick.store :=
  ⟨by decide, by decide, by decide⟩

/-- C1 amended: the leader-record invariant is preserved by create and
invite unconditionally, and by kick and departure-pruning whenever the
kicked or departing member is not the leader of any stored clan; kicking
a leader or a leader departure violates it (see the counterexample). -/
theorem claim_C1_leader_invariant_amended (env : Env) (w : World) (hinv : leaderInv w.store) :
    (∀ r n, leaderInv ((createClan env w r n).world.store))
  ∧ (∀ r t n, leaderInv ((inviteClan env w r t n).world.store))
  ∧ (∀ r t n, (∀ c ∈ w.store.clans, t ≠ c.leaderId) → leaderInv ((kickClan env w r t n).world.store))
  ∧ (∀ m, (∀ c ∈ w.store.clans, m ≠ c.leaderId) → leaderInv ((onMemberRemove env w m).store)) := by
  refine ⟨?_, ?_, ?_, ?_⟩
  · intro r n
    unfold createClan createClanChannels
    dsimp only
    repeat' split
    all_goals first
      | exact hinv
      | exact leaderInv_addClanToDb w.store n r _ _ hinv
  · intro r t n
    unfold inviteClan
    dsimp only
    repeat' split
    all_goals first
      | exact hinv
      | exact leaderInv_reconcile env _ _ (leaderInv_addMember w.store _ t hinv)
  · intro r t n ht
    unfold kickClan
    dsimp only
    repeat' split
    all_goals first
      | exact hinv
      | exact leaderInv_reconcile env _ _ (leaderInv_removeMember w.store _ t ht hinv)
  · intro m hm
    unfold onMemberRemove
    exact leaderInv_foldl_reconcile env _ _ (leaderInv_pruneMember w.store m hm hinv)

theorem claim_C1_witness :
    leaderInv ((createClan envAllOk wAlpha 2 nameBeta).world.store) ∧
      leaderInv ((kickClan envAllOk wAlphaInvited 1 2 nameAlpha).world.store) :=
  ⟨(claim_C1_leader_invariant_amended envAllOk wAlpha (by decide)).1 2 nameBeta,
   ((claim_C1_leader_invariant_amended envAllOk wAlphaInvited (by decide)).2.2.1) 1 2 nameAlpha (by decide)⟩

theorem no_record_of_pyTruthy_false (s : Store) (r : Nat)
    (hpos : ∀ p ∈ s.clanMembers, 0 < p.1)
    (hg : pyTruthy (getUserClan s r) = false) : ∀ p ∈ s.clanMembers, p.2 ≠ r := by
  intro p hp hpr
  cases hf : s.clanMembers.find? (fun q => q.2 == r) with
  | none =>
    have hnone := List.find?_eq_none.1 hf p hp
    simp [hpr] at hnone
  | some q =>
    have hq1 : q ∈ s.clanMembers := List.mem_of_find?_eq_some hf
    have hq0 : 0 < q.1 := hpos q hq1
    unfold getUserClan at hg
    rw [hf] at hg
    simp [pyTruthy] at hg
    omega

theorem membersUnique_addClanToDb (s : Store) (name : String) (r tid vid : Nat)
    (hu : membersUnique s) (hr : ∀ p ∈ s.clanMembers, p.2 ≠ r) :
    membersUnique (addClanToDb s name r tid vid) := by
  unfold membersUnique at hu ⊢
  rw [show (addClanToDb s name r tid vid).clanMembers = s.clanMembers ++ [(s.nextClanId, r)] from rfl]
  rw [List.pairwise_append]
  refine ⟨hu, by simp, ?_⟩
  intro a ha b hb
  rw [List.mem_singleton] at hb
  subst hb
  exact hr a ha

/-- C8 counterexample: the claim asserts every path that adds a
membership record first checks the target has none, so no create/invite
sequence yields two records for one member.  On the code, invite performs
no such check: after member 1 creates Alpha and member 2 creates Beta,
member 2 inviting member 1 into Beta leaves two records for member 1. -/
theorem claim_C8_counterexample :
    membersUnique w0.store ∧ ¬ membersUnique wDouble.store ∧
      (wDouble.store.clanMembers.filter (fun p => p.2 == 1)).length = 2 :=
  ⟨by decide, by decide, by decide⟩

/-- C8 amended: create does check (via get_user_clan truthiness) that the
requester has no existing membership, so create alone preserves the
at-most-one-clan-per-member invariant on stores whose clan ids are
positive; invite has no such check and can break the invariant. -/
theorem claim_C8_amended (env : Env) (w : World) (r : Nat) (n : String)
    (hu : membersUnique w.store) (hpos : ∀ p ∈ w.store.clanMembers, 0 < p.1) :
    membersUnique ((createClan env w r n).world.store) := by
  unfold createClan createClanChannels
  by_cases hg : pyTruthy (getUserClan w.store r) = true
  · rw [if_pos hg]
    exact hu
  · have hg' : pyTruthy (getUserClan w.store r) = false := by simpa using hg
    have hr := no_record_of_pyTruthy_false w.store r hpos hg'
    rw [if_neg hg]
    dsimp only
    repeat' split
    all_goals first
      | exact hu
      | exact membersUnique_addClanToDb w.store n r _ _ hu hr

theorem claim_C8_witness : membersUnique ((createClan envAllOk wAlpha 2 nameBeta).world.store) :=
  claim_C8_amended envAllOk wAlpha 2 nameBeta (by decide) (by decide)

/-- C9: when invite, kick or disband fails validation (unknown clan name,
or the requester is not the recorded leader) the reply reports the
failure and the world — store, tags, channels, overwrites — is returned
unchanged, with no exception. -/
theorem claim_C9_validation_no_change (env : Env) (w : World) (requester target : Nat) (clanName : String)
    (h : valFailsB w clanName requester = true) :
    ((inviteClan env w requester target clanName).world = w
      ∧ (inviteClan env w requester target clanName).err = none
      ∧ ((inviteClan env w requester target clanName).msg).isSome = true)
  ∧ ((kickClan env w requester target clanName).world = w
      ∧ (kickClan env w requester target clanName).err = none
      ∧ ((kickClan env w requester target clanName).msg).isSome = true)
  ∧ ((disbandClan env w requester clanName).world = w
      ∧ (disbandClan env w requester clanName).err = none
      ∧ ((disbandClan env w requester clanName).msg).isSome = true) := by
  unfold valFailsB at h
  cases hc : getClanByName w.store clanName with
  | none =>
    unfold inviteClan kickClan disbandClan
    rw [hc]
    simp
  | some clan =>
    rw [hc] at h
    dsimp only at h
    have hne : requester ≠ clan.leaderId := by simpa using h
    unfold inviteClan kickClan disbandClan
    rw [hc]
    simp [hne]

theorem claim_C9_witness :
    ((inviteClan envAllOk wAlpha 2 3 nameAlpha).world = wAlpha
      ∧ (inviteClan envAllOk wAlpha 2 3 nameAlpha).err = none
      ∧ ((inviteClan envAllOk wAlpha 2 3 nameAlpha).msg).isSome = true)
  ∧ ((kickClan envAllOk wAlpha 2 3 nameAlpha).world = wAlpha
      ∧ (kickClan envAllOk wAlpha 2 3 nameAlpha).err = none
      ∧ ((kickClan envAllOk wAlpha 2 3 nameAlpha).msg).isSome = true)
  ∧ ((disbandClan envAllOk wAlpha 2 nameAlpha).world = wAlpha
      ∧ (disbandClan envAllOk wAlpha 2 nameAlpha).err = none
      ∧ ((disbandClan envAllOk wAlpha 2 nameAlpha).msg).isSome = true) :=
  claim_C9_validation_no_change envAllOk wAlpha 2 3 nameAlpha (by decide)

/-- C7 counterexample: the claim asserts invite and kick on a clan whose
tag object was deleted externally complete without failing.  On the code,
the role resolved by name is passed unchecked to add_roles/remove_roles,
so with the role gone both handlers die of an AttributeError on None. -/
theorem claim_C7_counterexample :
    (inviteClan envAllOk wGhost 1 2 nameAlpha).err = some PyErr.attributeError ∧
      (kickClan envAllOk wGhost 1 2 nameAlpha).err = some PyErr.attributeError :=
  ⟨by decide, by decide⟩

/-- C7 amended: clan_info treats every missing external resource as
absent — it never fails, reporting an unresolvable leader as Unknown and
unresolvable channels as Deleted — but invite and kick on a clan whose
tag was deleted externally raise an attribute error (before touching the
store, so the world is unchanged). -/
theorem claim_C7_missing_resources_amended (env : Env) (w : World) :
    (∀ name, (clanInfo w name).err = none)
  ∧ (∀ name clan, getClanByName w.store name = some clan →
      ∃ f, (clanInfo w name).embed = some f
        ∧ (getMember w.guild clan.leaderId = none → f.leaderField = strUnknown)
        ∧ (getChannel w.guild clan.textChannelId = none → f.textField = strDeleted)
        ∧ (getChannel w.guild clan.voiceChannelId = none → f.voiceField = strDeleted))
  ∧ (∀ r t name clan, getClanByName w.store name = some clan → r = clan.leaderId →
      findRole w.guild name = none →
      inviteClan env w r t name = { world := w, err := some PyErr.attributeError, msg := none, trace := [] })
  ∧ (∀ r t name clan, getClanByName w.store name = some clan → r = clan.leaderId →
      findRole w.guild name = none →
      kickClan env w r t name = { world := w, err := some PyErr.attributeError, msg := none, trace := [] }) := by
  refine ⟨?_, ?_, ?_, ?_⟩
  · intro name
    unfold clanInfo
    cases getClanByName w.store name <;> rfl
  · intro name clan hc
    unfold clanInfo
    rw [hc]
    dsimp only
    refine ⟨_, rfl, ?_, ?_, ?_⟩
    · intro h
      rw [h]
      rfl
    · intro h
      rw [h]
      rfl
    · intro h
      rw [h]
      rfl
  · intro r t name clan hc hr hrole
    subst hr
    unfold inviteClan
    rw [hc]
    dsimp only
    rw [if_neg (by simp), hrole]
  · intro r t name clan hc hr hrole
    subst hr
    unfold kickClan
    rw [hc]
    dsimp only
    rw [if_neg (by simp), hrole]

theorem claim_C7_witness :
    ((clanInfo wGhost nameAlpha).err = none
      ∧ (clanInfo wGhost nameAlpha).embed = some
          { leaderField := strUnknown, membersField := strNone, textField := strDeleted, voiceField := strDeleted })
  ∧ inviteClan envAllOk wGhost 1 4 nameAlpha
      = { world := wGhost, err := some PyErr.attributeError, msg := none, trace := [] } := by
  refine ⟨⟨(claim_C7_missing_resources_amended envAllOk wGhost).1 nameAlpha, ?_⟩, ?_⟩
  · obtain ⟨f, hf, h1, h2, h3⟩ :=
      (claim_C7_missing_resources_amended envAllOk wGhost).2.1 nameAlpha clanAlpha (by decide)
    rw [hf]
    have e1 := h1 (by decide)
    have e2 := h2 (by decide)
    have e3 := h3 (by decide)
    have hmem : f.membersField = strNone := by
      have : (clanInfo wGhost nameAlpha).embed = some f := hf
      have hval : (clanInfo wGhost nameAlpha).embed = some
          { leaderField := strUnknown, membersField := strNone, textField := strDeleted, voiceField := strDeleted } := by decide
      rw [hval] at this
      cases this
      rfl
    cases f
    simp_all
  · exact (claim_C7_missing_resources_amended envAllOk wGhost).2.2.1 1 4 nameAlpha clanAlpha (by decide) (by decide) (by decide)

theorem any_false_of (l : List Nat) (f : Nat → Bool) (h : ∀ x, f x = false) : l.any f = false := by
  induction l with
  | nil => rfl
  | cons a t ih => simp [List.any_cons, h a, ih]

theorem any_memberPrin (l : List Nat) (g : Guild) (x : Nat) :
    (l.any fun mid => decide (Principal.memberPrin mid = Principal.memberPrin x) && resolvableMember g mid)
      = (l.any fun mid => mid == x && resolvableMember g mid) := by
  induction l with
  | nil => rfl
  | cons a t ih =>
    simp only [List.any_cons, ih]
    by_cases h : a = x
    · subst h
      simp
    · simp [h]

theorem any_key (l : List Nat) (x : Nat) (res : Nat → Bool) :
    (l.any fun mid => mid == x && res mid) = true ↔ (x ∈ l ∧ res x = true) := by
  rw [List.any_eq_true]
  constructor
  · rintro ⟨y, hy, hyx⟩
    simp only [Bool.and_eq_true, beq_iff_eq] at hyx
    obtain ⟨hyx1, hyx2⟩ := hyx
    subst hyx1
    exact ⟨hy, hyx2⟩
  · rintro ⟨hx, hres⟩
    exact ⟨x, hx, by simp [hres]⟩

theorem fChan_fChan_overwrites (t v : Nat) (ow : OWMap) (ch : Channel) (h : ch.id = t ∨ ch.id = v) :
    (fChan v ow (fChan t ow ch)).overwrites = ow := by
  rw [fChan_tv t v ow ch, if_pos h]

/-- C2 counterexample: the claim asserts the applied overwrite set grants
the leader view/send/connect/speak plus channel-management rights.  On
the code, the member loop re-assigns the leader's dict entry (the leader
is a recorded member), so the applied set maps the leader principal to
the plain member grant, whose manage_channels flag is unset. -/
theorem claim_C2_counterexample :
    (getChannel wAlphaRecon.guild 10).map (fun ch => owLookup ch.overwrites (Principal.memberPrin 1))
        = some (some memberGrant)
    ∧ (getChannel wAlphaRecon.guild 11).map (fun ch => owLookup ch.overwrites (Principal.memberPrin 1))
        = some (some memberGrant)
    ∧ memberGrant.manageChannels = none
    ∧ ¬ ((getChannel wAlphaRecon.guild 10).map (fun ch => owLookup ch.overwrites (Principal.memberPrin 1))
        = some (some leaderGrant)) :=
  ⟨by decide, by decide, by decide, by decide⟩

/-- C2 amended: when the clan row, tag, both channels and leader resolve
and both edits succeed, reconcile applies to both channels exactly the
set: default principal denied view; the tag principal granted
view/send/connect/speak; every recorded member resolvable in the guild
granted view/send/connect/speak; and the leader granted the member grant
when the leader is a recorded resolvable member (the normal case — the
member loop overwrote the leader entry, losing channel-management
rights), or the full leader grant only when not; no other principal has
an entry. -/
theorem claim_C2_overwrites_amended (env : Env) (w : World) (cid : Nat) (clan : Clan)
    (hc : findClanById w.store cid = some clan)
    (hres : resolveOkC w clan = true)
    (het : env.editChannel clan.textChannelId = Outcome.success)
    (hev : env.editChannel clan.voiceChannelId = Outcome.success) :
    ((getChannel (reconcileW env w cid).guild clan.textChannelId).map Channel.overwrites
        = some (computeOverwrites w.store w.guild clan)
      ∧ (getChannel (reconcileW env w cid).guild clan.voiceChannelId).map Channel.overwrites
        = some (computeOverwrites w.store w.guild clan))
  ∧ owLookup (computeOverwrites w.store w.guild clan) Principal.defaultRole = some denyView
  ∧ owLookup (computeOverwrites w.store w.guild clan) (Principal.rolePrin clan.name) = some memberGrant
  ∧ (∀ n, n ≠ clan.name → owLookup (computeOverwrites w.store w.guild clan) (Principal.rolePrin n) = none)
  ∧ (leaderRecorded w clan = true →
      owLookup (computeOverwrites w.store w.guild clan) (Principal.memberPrin clan.leaderId) = some memberGrant)
  ∧ (leaderRecorded w clan = false →
      owLookup (computeOverwrites w.store w.guild clan) (Principal.memberPrin clan.leaderId) = some leaderGrant)
  ∧ (∀ mid, mid ≠ clan.leaderId →
      owLookup (computeOverwrites w.store w.guild clan) (Principal.memberPrin mid)
        = (if mid ∈ getMembersOf w.store clan.id ∧ resolvableMember w.guild mid = true
           then some memberGrant else none)) := by
  have hres2 := hres
  unfold resolveOkC at hres2
  simp only [Bool.and_eq_true] at hres2
  obtain ⟨⟨⟨hrole, htex⟩, hvox⟩, hlead⟩ := hres2
  obtain ⟨cht, hcht⟩ := Option.isSome_iff_exists.1 htex
  obtain ⟨chv, hchv⟩ := Option.isSome_iff_exists.1 hvox
  have hchtid : cht.id = clan.textChannelId := by
    unfold getChannel at hcht
    have := List.find?_some hcht
    simpa using this
  have hchvid : chv.id = clan.voiceChannelId := by
    unfold getChannel at hchv
    have := List.find?_some hchv
    simpa using this
  refine ⟨?_, ?_, ?_, ?_, ?_, ?_, ?_⟩
  · rw [reconcileW_resolve env w cid clan hc hres]
    unfold applyOW
    rw [het, hev]
    dsimp only
    constructor
    · rw [getChannel_setChannelOW, getChannel_setChannelOW, hcht]
      simp only [Option.map_map, Option.map_some']
      rw [fChan_fChan_overwrites _ _ _ cht (Or.inl hchtid)]
    · rw [getChannel_setChannelOW, getChannel_setChannelOW, hchv]
      simp only [Option.map_map, Option.map_some']
      rw [fChan_fChan_overwrites _ _ _ chv (Or.inr hchvid)]
  · unfold computeOverwrites
    rw [owLookup_fold]
    rw [any_false_of _ _ (fun mid => by simp)]
    simp [owLookup]
  · unfold computeOverwrites
    rw [owLookup_fold]
    rw [any_false_of _ _ (fun mid => by simp)]
    simp [owLookup]
  · intro n hn
    unfold computeOverwrites
    rw [owLookup_fold]
    rw [any_false_of _ _ (fun mid => by simp)]
    simp [owLookup, Ne.symm hn]
  · intro h
    unfold computeOverwrites
    rw [owLookup_fold, any_memberPrin]
    rw [show (getMembersOf w.store clan.id).any
        (fun mid => mid == clan.leaderId && resolvableMember w.guild mid) = leaderRecorded w clan from rfl]
    rw [h]
    rfl
  · intro h
    unfold computeOverwrites
    rw [owLookup_fold, any_memberPrin]
    rw [show (getMembersOf w.store clan.id).any
        (fun mid => mid == clan.leaderId && resolvableMember w.guild mid) = leaderRecorded w clan from rfl]
    rw [h]
    simp [owLookup]
  · intro mid hmid
    unfold computeOverwrites
    rw [owLookup_fold, any_memberPrin]
    by_cases hmem : mid ∈ getMembersOf w.store clan.id ∧ resolvableMember w.guild mid = true
    · rw [if_pos ((any_key _ _ _).2 hmem), if_pos hmem]
    · have hfalse : ((getMembersOf w.store clan.id).any
          (fun mid' => mid' == mid && resolvableMember w.guild mid')) = false := by
        rw [Bool.eq_false_iff]
        intro hcon
        exact hmem ((any_key _ _ _).1 hcon)
      rw [hfalse, if_neg hmem]
      simp only [Bool.false_eq_true, if_false]
      simp [owLookup, Ne.symm hmid]

theorem claim_C2_witness :
    (getChannel (reconcileW envAllOk wAlpha 1).guild clanAlpha.textChannelId).map Channel.overwrites
        = some (computeOverwrites wAlpha.store wAlpha.guild clanAlpha)
    ∧ owLookup (computeOverwrites wAlpha.store wAlpha.guild clanAlpha) Principal.defaultRole = some denyView
    ∧ owLookup (computeOverwrites wAlpha.store wAlpha.guild clanAlpha) (Principal.memberPrin clanAlpha.leaderId)
        = some memberGrant := by
  obtain ⟨⟨hA, _⟩, hB, _, _, hE, _, _⟩ :=
    claim_C2_overwrites_amended envAllOk wAlpha 1 clanAlpha (by decide) (by decide) rfl rfl
  exact ⟨hA, hB, hE (by decide)⟩

theorem contains_append_self (l : List String) (x : String) : (l ++ [x]).contains x = true := by
  induction l with
  | nil => simp
  | cons a t ih => simp [ih]

theorem contains_filter_ne (l : List String) (x : String) :
    ((l.filter (fun r => r != x)).contains x) = false := by
  induction l with
  | nil => rfl
  | cons a t ih =>
    by_cases h : a = x
    · subst h
      simp [List.filter_cons, ih]
    · simp [List.filter_cons, h, ih, Ne.symm h]

theorem filter_id_lt (n m : Nat) (hm : n ≤ m) :
    ∀ (l : List Channel), (∀ ch ∈ l, ch.id < n) → l.filter (fun ch => ch.id != m) = l := by
  intro l
  induction l with
  | nil => intro _; rfl
  | cons a t ih =>
    intro h
    have ha := h a (List.mem_cons_self a t)
    have hne : (a.id != m) = true := by
      simp only [bne_iff_ne, ne_eq]
      omega
    rw [List.filter_cons, if_pos hne, ih (fun ch hch => h ch (List.mem_cons_of_mem a hch))]

/-- C3 counterexample: the claim asserts that when create fails at the
duplicate-name rejection from the store, every external resource created
for the clan — tag, grouping container, channels — is deleted.  On the
code the rollback deletes the role and both channels but never the
category: the grouping container CLAN - Alpha remains orphaned. -/
theorem claim_C3_counterexample :
    (createClan envDbFail w0 1 nameAlpha).msg = some msgClanInDb
    ∧ (createClan envDbFail w0 1 nameAlpha).world.guild.roleNames = []
    ∧ (createClan envDbFail w0 1 nameAlpha).world.guild.channels = []
    ∧ (createClan envDbFail w0 1 nameAlpha).world.guild.categories = [catNameOf nameAlpha]
    ∧ (createClan envDbFail w0 1 nameAlpha).world.store = w0.store :=
  ⟨by decide, by decide, by decide, by decide, by decide⟩

/-- C3 amended: when create passes validation and has created the tag
and the grouping container, a later failure — the duplicate-name
rejection from the store, or either channel creation failing — rolls
back the tag and any created channels, but never the grouping
container, which remains orphaned; moreover, on a channel-creation
failure the rollback itself dies referencing the not-yet-assigned
channel variable (after deleting the role, and the text channel when
the voice creation failed), and the store is untouched. -/
theorem claim_C3_rollback_amended (env : Env) (w : World) (r : Nat) (name : String)
    (hg : pyTruthy (getUserClan w.store r) = false)
    (hn : getClanByName w.store name = none)
    (hrol : w.guild.roleNames.contains name = false)
    (hcat : w.guild.categories.contains (catNameOf name) = false)
    (h1 : env.createRole = Outcome.success)
    (h2 : env.createCategory = Outcome.success)
    (h7 : env.deleteRole = Outcome.success)
    (hfresh : ∀ ch ∈ w.guild.channels, ch.id < w.guild.nextChannelId) :
    (env.createTextChannel = Outcome.success → env.createVoiceChannel = Outcome.success →
     env.addRoles = Outcome.success → env.dbInsertOk = false →
     env.deleteChannel w.guild.nextChannelId = Outcome.success →
     env.deleteChannel (w.guild.nextChannelId + 1) = Outcome.success →
       (createClan env w r name).err = none
       ∧ (createClan env w r name).msg = some msgClanInDb
       ∧ (createClan env w r name).world.store = w.store
       ∧ (createClan env w r name).world.guild.roleNames.contains name = false
       ∧ (createClan env w r name).world.guild.channels = w.guild.channels
       ∧ (createClan env w r name).world.guild.categories.contains (catNameOf name) = true)
  ∧ (env.createTextChannel = Outcome.forbidden →
       (createClan env w r name).err = some PyErr.unboundLocal
       ∧ (createClan env w r name).msg = some msgCannotChannels
       ∧ (createClan env w r name).world.store = w.store
       ∧ (createClan env w r name).world.guild.roleNames.contains name = false
       ∧ (createClan env w r name).world.guild.channels = w.guild.channels
       ∧ (createClan env w r name).world.guild.categories.contains (catNameOf name) = true)
  ∧ (env.createTextChannel = Outcome.success → env.createVoiceChannel = Outcome.forbidden →
     env.deleteChannel w.guild.nextChannelId = Outcome.success →
       (createClan env w r name).err = some PyErr.unboundLocal
       ∧ (createClan env w r name).msg = some msgCannotChannels
       ∧ (createClan env w r name).world.store = w.store
       ∧ (createClan env w r name).world.guild.roleNames.contains name = false
       ∧ (createClan env w r name).world.guild.channels = w.guild.channels
       ∧ (createClan env w r name).world.guild.categories.contains (catNameOf name) = true) := by
  refine ⟨?_, ?_, ?_⟩
  · intro h3 h4 h5 h6 h8 h9
    unfold createClan
    rw [if_neg (by simp [hg]), if_neg (by simp [hn]), if_neg (by simpa using hrol), h1]
    dsimp only
    rw [if_neg (show ¬ ((addRole w.guild name).categories.contains (catNameOf name) = true) from by
          simpa [addRole] using hcat), h2]
    unfold createClanChannels
    rw [h3]
    dsimp only
    rw [h4]
    dsimp only
    rw [h5]
    dsimp only
    rw [if_neg (by simp [h6]), h7]
    dsimp only
    rw [show env.deleteChannel (addCategory (addRole w.guild name) (catNameOf name)).nextChannelId
          = Outcome.success from h8]
    dsimp only
    rw [show env.deleteChannel ((addCategory (addRole w.guild name) (catNameOf name)).nextChannelId + 1)
          = Outcome.success from h9]
    dsimp only
    refine ⟨rfl, rfl, rfl, ?_, ?_, ?_⟩
    · show ((((w.guild.roleNames ++ [name]).filter (fun x => x != name))).contains name) = false
      exact contains_filter_ne (w.guild.roleNames ++ [name]) name
    · show ((((w.guild.channels
          ++ [({ id := w.guild.nextChannelId, name := strLower name ++ textSuffix, category := catNameOf name, overwrites := initOverwrites name r } : Channel)])
          ++ [({ id := w.guild.nextChannelId + 1, name := strLower name ++ voiceSuffix, category := catNameOf name, overwrites := initOverwrites name r } : Channel)]).filter
            (fun ch => ch.id != w.guild.nextChannelId)).filter
            (fun ch => ch.id != w.guild.nextChannelId + 1)) = w.guild.channels
      have e1 : List.filter (fun ch => ch.id != w.guild.nextChannelId) w.guild.channels = w.guild.channels :=
        filter_id_lt w.guild.nextChannelId w.guild.nextChannelId (Nat.le_refl _) w.guild.channels hfresh
      have e2 : List.filter (fun ch => ch.id != w.guild.nextChannelId + 1) w.guild.channels = w.guild.channels :=
        filter_id_lt w.guild.nextChannelId (w.guild.nextChannelId + 1) (Nat.le_succ _) w.guild.channels hfresh
      have hbne1 : ((w.guild.nextChannelId + 1) != w.guild.nextChannelId) = true := by
        simp only [bne_iff_ne, ne_eq]
        omega
      simp [List.filter_append, e1, e2, List.filter_cons, hbne1]
    · show (((w.guild.categories ++ [catNameOf name])).contains (catNameOf name)) = true
      exact contains_append_self w.guild.categories (catNameOf name)
  · intro ht
    unfold createClan
    rw [if_neg (by simp [hg]), if_neg (by simp [hn]), if_neg (by simpa using hrol), h1]
    dsimp only
    rw [if_neg (show ¬ ((addRole w.guild name).categories.contains (catNameOf name) = true) from by
          simpa [addRole] using hcat), h2]
    unfold createClanChannels
    rw [ht, h7]
    dsimp only
    refine ⟨rfl, rfl, rfl, ?_, rfl, ?_⟩
    · show ((((w.guild.roleNames ++ [name]).filter (fun x => x != name))).contains name) = false
      exact contains_filter_ne (w.guild.roleNames ++ [name]) name
    · show (((w.guild.categories ++ [catNameOf name])).contains (catNameOf name)) = true
      exact contains_append_self w.guild.categories (catNameOf name)
  · intro ht hv hd
    unfold createClan
    rw [if_neg (by simp [hg]), if_neg (by simp [hn]), if_neg (by simpa using hrol), h1]
    dsimp only
    rw [if_neg (show ¬ ((addRole w.guild name).categories.contains (catNameOf name) = true) from by
          simpa [addRole] using hcat), h2]
    unfold createClanChannels
    rw [ht]
    dsimp only
    rw [hv, h7]
    dsimp only
    rw [show env.deleteChannel (addCategory (addRole w.guild name) (catNameOf name)).nextChannelId
          = Outcome.success from hd]
    dsimp only
    refine ⟨rfl, rfl, rfl, ?_, ?_, ?_⟩
    · show ((((w.guild.roleNames ++ [name]).filter (fun x => x != name))).contains name) = false
      exact contains_filter_ne (w.guild.roleNames ++ [name]) name
    · show ((w.guild.channels
          ++ [({ id := w.guild.nextChannelId, name := strLower name ++ textSuffix, category := catNameOf name, overwrites := initOverwrites name r } : Channel)]).filter
            (fun ch => ch.id != w.guild.nextChannelId)) = w.guild.channels
      have e1 : List.filter (fun ch => ch.id != w.guild.nextChannelId) w.guild.channels = w.guild.channels :=
        filter_id_lt w.guild.nextChannelId w.guild.nextChannelId (Nat.le_refl _) w.guild.channels hfresh
      simp [List.filter_append, e1, List.filter_cons]
    · show (((w.guild.categories ++ [catNameOf name])).contains (catNameOf name)) = true
      exact contains_append_self w.guild.categories (catNameOf name)

theorem claim_C3_witness :
    ((createClan envDbFail w0 1 nameAlpha).err = none
      ∧ (createClan envDbFail w0 1 nameAlpha).world.store = w0.store
      ∧ (createClan envDbFail w0 1 nameAlpha).world.guild.categories.contains (catNameOf nameAlpha) = true)
    ∧ ((createClan envTextFail w0 1 nameAlpha).err = some PyErr.unboundLocal
      ∧ (createClan envTextFail w0 1 nameAlpha).world.store = w0.store
      ∧ (createClan envTextFail w0 1 nameAlpha).world.guild.categories.contains (catNameOf nameAlpha) = true)
    ∧ ((createClan envVoiceCreateFail w0 1 nameAlpha).err = some PyErr.unboundLocal
      ∧ (createClan envVoiceCreateFail w0 1 nameAlpha).world.guild.channels = w0.guild.channels
      ∧ (createClan envVoiceCreateFail w0 1 nameAlpha).world.guild.roleNames.contains nameAlpha = false) := by
  refine ⟨?_, ?_, ?_⟩
  · obtain ⟨ha, _, hs, _, _, hf⟩ :=
      (claim_C3_rollback_amended envDbFail w0 1 nameAlpha (by decide) (by decide) (by decide) (by decide)
        rfl rfl rfl (by decide)).1 rfl rfl rfl rfl rfl rfl
    exact ⟨ha, hs, hf⟩
  · obtain ⟨ha, _, hs, _, _, hf⟩ :=
      (claim_C3_rollback_amended envTextFail w0 1 nameAlpha (by decide) (by decide) (by decide) (by decide)
        rfl rfl rfl (by decide)).2.1 rfl
    exact ⟨ha, hs, hf⟩
  · obtain ⟨ha, _, _, hr, hchan, _⟩ :=
      (claim_C3_rollback_amended envVoiceCreateFail w0 1 nameAlpha (by decide) (by decide) (by decide) (by decide)
        rfl rfl rfl (by decide)).2.2 rfl rfl rfl
    exact ⟨ha, hchan, hr⟩

theorem removeRoleAll_success (env : Env) (name : String) :
    ∀ (ms : List Nat) (g : Guild), (∀ m ∈ ms, env.removeRoles m = Outcome.success) →
      ∃ g', removeRoleAll env name g ms = Except.ok g'
        ∧ g'.roleNames = g.roleNames ∧ g'.channels = g.channels ∧ g'.categories = g.categories := by
  intro ms
  induction ms with
  | nil =>
    intro g _
    exact ⟨g, rfl, rfl, rfl, rfl⟩
  | cons m ms ih =>
    intro g h
    have hm := h m (List.mem_cons_self m ms)
    obtain ⟨g', hok, h1, h2, h3⟩ := ih (unassignRole g name m) (fun x hx => h x (List.mem_cons_of_mem m hx))
    refine ⟨g', ?_, h1, h2, h3⟩
    unfold removeRoleAll
    rw [hm]
    exact hok

theorem removeRoleAll_error (env : Env) (name : String) :
    ∀ (ms : List Nat) (g : Guild), (∃ m ∈ ms, env.removeRoles m ≠ Outcome.success) →
      ∃ e g', removeRoleAll env name g ms = Except.error (e, g')
        ∧ g'.roleNames = g.roleNames ∧ g'.channels = g.channels ∧ g'.categories = g.categories := by
  intro ms
  induction ms with
  | nil =>
    intro g h
    obtain ⟨m, hm, _⟩ := h
    cases hm
  | cons m ms ih =>
    intro g h
    cases hm : env.removeRoles m with
    | success =>
      obtain ⟨m0, hm0, hne0⟩ := h
      rcases List.mem_cons.1 hm0 with heq | hmem
      · subst heq
        exact absurd hm hne0
      · obtain ⟨e, g', hok, h1, h2, h3⟩ := ih (unassignRole g name m) ⟨m0, hmem, hne0⟩
        refine ⟨e, g', ?_, h1, h2, h3⟩
        unfold removeRoleAll
        rw [hm]
        exact hok
    | forbidden =>
      refine ⟨PyErr.forbidden, g, ?_, rfl, rfl, rfl⟩
      unfold removeRoleAll
      rw [hm]
    | err =>
      refine ⟨PyErr.other, g, ?_, rfl, rfl, rfl⟩
      unfold removeRoleAll
      rw [hm]

theorem getChannel_congr (g g' : Guild) (h : g.channels = g'.channels) (cid : Nat) :
    getChannel g cid = getChannel g' cid := by
  unfold getChannel
  rw [h]

theorem disbandCategoryStep_ok (env : Env) (g : Guild) (catName : String)
    (hdc : env.deleteCategory ≠ Outcome.err) :
    ∃ g' tr, disbandCategoryStep env g catName = Except.ok (g', tr)
      ∧ g'.roleNames = g.roleNames ∧ g'.channels = g.channels := by
  unfold disbandCategoryStep
  split
  · cases ho : env.deleteCategory with
    | success => exact ⟨removeCategory g catName, [DAction.deletedCategory], rfl, rfl, rfl⟩
    | forbidden => exact ⟨g, [], rfl, rfl, rfl⟩
    | err => exact absurd ho hdc
  · exact ⟨g, [], rfl, rfl, rfl⟩

/-- C10: if, during disband, removing the tag from one of its current
holders fails, the exception propagates before any deletion: the role,
both channels and the category survive, the store keeps the clan row and
all membership records, and the teardown trace is empty. -/
theorem claim_C10_disband_abort (env : Env) (w : World) (requester : Nat) (clanName : String) (clan : Clan)
    (hc : getClanByName w.store clanName = some clan)
    (hl : requester = clan.leaderId)
    (hrole : w.guild.roleNames.contains clanName = true)
    (hfail : ∃ m ∈ roleHolders w.guild clanName, env.removeRoles m ≠ Outcome.success) :
    ((disbandClan env w requester clanName).err).isSome = true
    ∧ (disbandClan env w requester clanName).world.store = w.store
    ∧ (disbandClan env w requester clanName).world.guild.roleNames = w.guild.roleNames
    ∧ (disbandClan env w requester clanName).world.guild.channels = w.guild.channels
    ∧ (disbandClan env w requester clanName).world.guild.categories = w.guild.categories
    ∧ (disbandClan env w requester clanName).trace = [] := by
  obtain ⟨e, g', herr, h1, h2, h3⟩ :=
    removeRoleAll_error env clanName (roleHolders w.guild clanName) w.guild hfail
  unfold disbandClan
  rw [hc]
  dsimp only
  rw [if_neg (by simp [hl]), if_pos hrole, herr]
  exact ⟨rfl, rfl, h1, h2, h3, rfl⟩

theorem claim_C10_witness :
    ((disbandClan envKickFail wAlpha 1 nameAlpha).err).isSome = true
    ∧ (disbandClan envKickFail wAlpha 1 nameAlpha).world.store = wAlpha.store
    ∧ (disbandClan envKickFail wAlpha 1 nameAlpha).world.guild.roleNames = wAlpha.guild.roleNames
    ∧ (disbandClan envKickFail wAlpha 1 nameAlpha).world.guild.channels = wAlpha.guild.channels
    ∧ (disbandClan envKickFail wAlpha 1 nameAlpha).world.guild.categories = wAlpha.guild.categories
    ∧ (disbandClan envKickFail wAlpha 1 nameAlpha).trace = [] :=
  claim_C10_disband_abort envKickFail wAlpha 1 nameAlpha clanAlpha (by decide) (by decide) (by decide) (by decide)

/-- C4: disband teardown is best-effort — with the voice-channel deletion
failing on a privilege error, the tag and the text channel are still
deleted, the voice channel survives, the clan row and all its membership
records are still removed from the store, no exception escapes, and the
store deletion is the last teardown action. -/
theorem claim_C4_disband_best_effort (env : Env) (w : World) (requester : Nat) (clanName : String)
    (clan : Clan) (cht chv : Channel)
    (hc : getClanByName w.store clanName = some clan)
    (hl : requester = clan.leaderId)
    (hrole : w.guild.roleNames.contains clanName = true)
    (hhold : ∀ m ∈ roleHolders w.guild clanName, env.removeRoles m = Outcome.success)
    (hdr : env.deleteRole = Outcome.success)
    (hct : getChannel w.guild clan.textChannelId = some cht)
    (hcv : getChannel w.guild clan.voiceChannelId = some chv)
    (hne : clan.textChannelId ≠ clan.voiceChannelId)
    (hdt : env.deleteChannel clan.textChannelId = Outcome.success)
    (hdv : env.deleteChannel clan.voiceChannelId = Outcome.forbidden)
    (hdc : env.deleteCategory ≠ Outcome.err) :
    (disbandClan env w requester clanName).err = none
    ∧ (disbandClan env w requester clanName).msg = some (msgDisbanded clanName)
    ∧ (disbandClan env w requester clanName).world.guild.roleNames.contains clanName = false
    ∧ getChannel (disbandClan env w requester clanName).world.guild clan.textChannelId = none
    ∧ (getChannel (disbandClan env w requester clanName).world.guild clan.voiceChannelId).isSome = true
    ∧ (∀ cl ∈ (disbandClan env w requester clanName).world.store.clans, cl.id ≠ clan.id)
    ∧ (∀ p ∈ (disbandClan env w requester clanName).world.store.clanMembers, p.1 ≠ clan.id)
    ∧ (disbandClan env w requester clanName).trace.getLast? = some (DAction.removedClanRow clan.id) := by
  obtain ⟨g1, hok, hr1, hc1, hcat1⟩ :=
    removeRoleAll_success env clanName (roleHolders w.guild clanName) w.guild hhold
  have hchvmem : chv ∈ w.guild.channels := by
    unfold getChannel at hcv
    exact List.mem_of_find?_eq_some hcv
  have hchvid : chv.id = clan.voiceChannelId := by
    unfold getChannel at hcv
    have := List.find?_some hcv
    simpa using this
  have hg2chan : (removeRoleG g1 clanName).channels = w.guild.channels := by
    rw [show (removeRoleG g1 clanName).channels = g1.channels from rfl, hc1]
  have hgt : getChannel (removeRoleG g1 clanName) clan.textChannelId = some cht := by
    rw [getChannel_congr (removeRoleG g1 clanName) w.guild hg2chan]
    exact hct
  have hstep1 : disbandChannelStep env (removeRoleG g1 clanName) clan.textChannelId
      = Except.ok (deleteChannelG (removeRoleG g1 clanName) clan.textChannelId,
          [DAction.deletedChannel clan.textChannelId]) := by
    unfold disbandChannelStep
    rw [hgt, hdt]
  have hg3chan : (deleteChannelG (removeRoleG g1 clanName) clan.textChannelId).channels
      = w.guild.channels.filter (fun ch => ch.id != clan.textChannelId) := by
    rw [show (deleteChannelG (removeRoleG g1 clanName) clan.textChannelId).channels
        = (removeRoleG g1 clanName).channels.filter (fun ch => ch.id != clan.textChannelId) from rfl, hg2chan]
  have hgv : (getChannel (deleteChannelG (removeRoleG g1 clanName) clan.textChannelId)
      clan.voiceChannelId).isSome = true := by
    unfold getChannel
    rw [hg3chan, List.find?_isSome]
    refine ⟨chv, List.mem_filter.2 ⟨hchvmem, ?_⟩, ?_⟩
    · rw [hchvid]
      exact bne_iff_ne.2 (Ne.symm hne)
    · rw [hchvid]
      exact beq_self_eq_true clan.voiceChannelId
  obtain ⟨chvx, hchvx⟩ := Option.isSome_iff_exists.1 hgv
  have hstep2 : disbandChannelStep env (deleteChannelG (removeRoleG g1 clanName) clan.textChannelId)
      clan.voiceChannelId
      = Except.ok (deleteChannelG (removeRoleG g1 clanName) clan.textChannelId, []) := by
    unfold disbandChannelStep
    rw [hchvx, hdv]
  obtain ⟨g5, tr4, hcs, hg5r, hg5c⟩ :=
    disbandCategoryStep_ok env (deleteChannelG (removeRoleG g1 clanName) clan.textChannelId)
      (catNameOf clanName) hdc
  unfold disbandClan
  rw [hc]
  dsimp only
  rw [if_neg (by simp [hl]), if_pos hrole, hok, hdr]
  dsimp only
  rw [hstep1]
  dsimp only
  rw [hstep2]
  dsimp only
  rw [hcs]
  dsimp only
  refine ⟨rfl, rfl, ?_, ?_, ?_, ?_, ?_, ?_⟩
  · rw [show g5.roleNames = (removeRoleG g1 clanName).roleNames from hg5r]
    rw [show (removeRoleG g1 clanName).roleNames = g1.roleNames.filter (fun r => r != clanName) from rfl, hr1]
    exact contains_filter_ne w.guild.roleNames clanName
  · unfold getChannel
    rw [show g5.channels = (deleteChannelG (removeRoleG g1 clanName) clan.textChannelId).channels from hg5c]
    rw [hg3chan, List.find?_eq_none]
    intro x hx
    have hxf := (List.mem_filter.1 hx).2
    have hxne : x.id ≠ clan.textChannelId := bne_iff_ne.1 hxf
    simp [hxne]
  · rw [getChannel_congr g5 (deleteChannelG (removeRoleG g1 clanName) clan.textChannelId) hg5c]
    exact hgv
  · intro cl hcl
    have hf := (List.mem_filter.1 hcl).2
    exact bne_iff_ne.1 hf
  · intro p hp
    have hf := (List.mem_filter.1 hp).2
    exact bne_iff_ne.1 hf
  · rw [List.getLast?_concat]

theorem claim_C4_witness :
    (disbandClan envVoiceFail wAlpha 1 nameAlpha).err = none
    ∧ (disbandClan envVoiceFail wAlpha 1 nameAlpha).msg = some (msgDisbanded nameAlpha)
    ∧ (disbandClan envVoiceFail wAlpha 1 nameAlpha).world.guild.roleNames.contains nameAlpha = false
    ∧ getChannel (disbandClan envVoiceFail wAlpha 1 nameAlpha).world.guild clanAlpha.textChannelId = none
    ∧ (getChannel (disbandClan envVoiceFail wAlpha 1 nameAlpha).world.guild clanAlpha.voiceChannelId).isSome = true
    ∧ (disbandClan envVoiceFail wAlpha 1 nameAlpha).trace.getLast? = some (DAction.removedClanRow clanAlpha.id) := by
  obtain ⟨ha, hb, hcc, hd, he, _, _, hh⟩ :=
    claim_C4_disband_best_effort envVoiceFail wAlpha 1 nameAlpha clanAlpha
      { id := 10, name := "alpha-text", category := catNameOf nameAlpha, overwrites := initOverwrites nameAlpha 1 }
      { id := 11, name := "alpha-voice", category := catNameOf nameAlpha, overwrites := initOverwrites nameAlpha 1 }
      (by decide) (by decide) (by decide) (by decide) rfl (by decide) (by decide) (by decide) rfl rfl (by decide)
  exact ⟨ha, hb, hcc, hd, he, hh⟩
